import Mathlib

/-!
Verification of the binary-introspection and configuration-verification
core of funfuzz (src/funfuzz/js/inspect_shell.py), as a shallow embedding:
the external process boundary is an oracle from argument vectors to a
captured result, and every Python-level failure (raise, assert, index
error, JSON decode error) is an explicit error value.
-/

namespace InspectShell

/-- Result of one external process invocation: captured standard output and the exit code. -/
structure ProbeResult where
  stdout : String
  exitCode : Int
  deriving DecidableEq

/-- Python-level failures the module can raise: an explicit raise with a
message, a failed assert, an index error from an unguarded list index, and
a JSON decode failure. -/
inductive PyError where
  | exception (msg : String)
  | assertionError
  | indexError
  | jsonDecodeError
  deriving DecidableEq

/-- Embedding of constructVgCmdList: the fixed valgrind argument list,
conditional on the Darwin platform flag. -/
def constructVgCmdList (isDarwin : Bool) (errorCode : Int) : List String :=
  ["valgrind"]
    ++ (if isDarwin then ["--dsymutil=yes"] else [])
    ++ ["--error-exitcode=" ++ toString errorCode,
        "--vex-iropt-register-updates=allregs-at-mem-access",
        "--gen-suppressions=all",
        "--leak-check=full",
        "--errors-for-leak-kinds=definite",
        "--show-leak-kinds=definite",
        "--show-possibly-lost=no",
        "--num-callers=50"]

/-- Embedding of testBinary: build the test command (valgrind arguments when
requested, then the shell path, then the probe arguments) and run it through
the process oracle, yielding captured stdout and exit code. Logging, cwd and
env handling are external effects outside the embedding; the wall-clock
timeout value appears separately as testBinaryTimeout. -/
def testBinary (run : List String → ProbeResult) (isDarwin : Bool)
    (shellPath : String) (args : List String) (useValgrind : Bool) : ProbeResult :=
  run ((if useValgrind then constructVgCmdList isDarwin 77 else []) ++ [shellPath] ++ args)

/-- Embedding of shellSupports: probe the shell with the given arguments and
classify the exit code, with exit code 0 meaning supported, 1 through 3
meaning unsupported, and every other code raising an exception that carries
the numeric code in its message. -/
def shellSupports (run : List String → ProbeResult) (isDarwin : Bool)
    (shellPath : String) (args : List String) : Except PyError Bool :=
  let return_code := (testBinary run isDarwin shellPath args false).exitCode
  if return_code = 0 then
    Except.ok true
  else if 1 ≤ return_code ∧ return_code ≤ 3 then
    Except.ok false
  else
    Except.error (PyError.exception ("Unexpected exit code in shellSupports " ++ toString return_code))

/-- Embedding of testJsShellOrXpcshell: probe support for the Components
symbol and classify the binary as xpcshell when supported, jsShell when not;
a classification failure in shellSupports propagates. -/
def testJsShellOrXpcshell (run : List String → ProbeResult) (isDarwin : Bool)
    (s : String) : Except PyError String :=
  match shellSupports run isDarwin s ["-e", "Components"] with
  | Except.ok b => Except.ok (if b then "xpcshell" else "jsShell")
  | Except.error e => Except.error e

/-- C1: shellSupports returns true for exit code 0, false for every exit code
in the range 1 through 3, and for every other exit code fails with an
exception whose message carries the numeric code. -/
theorem shellSupports_classifies (run : List String → ProbeResult) (isDarwin : Bool)
    (shellPath : String) (args : List String) (rc : Int)
    (h : (testBinary run isDarwin shellPath args false).exitCode = rc) :
    (rc = 0 → shellSupports run isDarwin shellPath args = Except.ok true) ∧
    (1 ≤ rc ∧ rc ≤ 3 → shellSupports run isDarwin shellPath args = Except.ok false) ∧
    (rc ≠ 0 → ¬ (1 ≤ rc ∧ rc ≤ 3) →
      shellSupports run isDarwin shellPath args =
        Except.error (PyError.exception
          ("Unexpected exit code in shellSupports " ++ toString rc))) := by
  unfold shellSupports
  rw [h]
  refine ⟨?_, ?_, ?_⟩
  · intro h0
    rw [if_pos h0]
  · intro h13
    have h0 : ¬ rc = 0 := by omega
    rw [if_neg h0, if_pos h13]
  · intro h0 h13
    rw [if_neg h0, if_neg h13]

/-- C1 witness: concrete oracles exercising exit codes 0, 2 and 139. -/
theorem shellSupports_classifies_witness :
    shellSupports (fun _ => ⟨"", 0⟩) false "js" [] = Except.ok true ∧
    shellSupports (fun _ => ⟨"", 2⟩) false "js" [] = Except.ok false ∧
    shellSupports (fun _ => ⟨"", 139⟩) false "js" [] =
      Except.error (PyError.exception
        ("Unexpected exit code in shellSupports " ++ toString (139 : Int))) :=
  ⟨(shellSupports_classifies (fun _ => ⟨"", 0⟩) false "js" [] 0 rfl).1 rfl,
   (shellSupports_classifies (fun _ => ⟨"", 2⟩) false "js" [] 2 rfl).2.1 (by decide),
   (shellSupports_classifies (fun _ => ⟨"", 139⟩) false "js" [] 139 rfl).2.2
     (by decide) (by decide)⟩

/-- C6: testJsShellOrXpcshell probes the binary with the arguments -e and
Components; exit code 0 from that probe yields xpcshell and every exit code
in the range 1 through 3 yields jsShell. -/
theorem testJsShellOrXpcshell_classifies (run : List String → ProbeResult)
    (isDarwin : Bool) (s : String) (rc : Int)
    (h : (run [s, "-e", "Components"]).exitCode = rc) :
    (rc = 0 → testJsShellOrXpcshell run isDarwin s = Except.ok "xpcshell") ∧
    (1 ≤ rc ∧ rc ≤ 3 → testJsShellOrXpcshell run isDarwin s = Except.ok "jsShell") := by
  unfold testJsShellOrXpcshell shellSupports testBinary
  simp only [if_neg Bool.false_ne_true, List.nil_append, List.cons_append, List.append_nil]
  rw [h]
  constructor
  · intro h0
    rw [if_pos h0]
    rfl
  · intro h13
    have h0 : ¬ rc = 0 := by omega
    rw [if_neg h0, if_pos h13]
    rfl

/-- C6 witness: concrete oracles exercising exit codes 0 and 2 on the
Components probe. -/
theorem testJsShellOrXpcshell_classifies_witness :
    testJsShellOrXpcshell (fun _ => ⟨"", 0⟩) false "js" = Except.ok "xpcshell" ∧
    testJsShellOrXpcshell (fun _ => ⟨"", 2⟩) false "js" = Except.ok "jsShell" :=
  ⟨(testJsShellOrXpcshell_classifies (fun _ => ⟨"", 0⟩) false "js" 0 rfl).1 rfl,
   (testJsShellOrXpcshell_classifies (fun _ => ⟨"", 2⟩) false "js" 2 rfl).2 (by decide)⟩

/-- Containment test on character lists: does the pattern start the list. -/
def strStartsWith : List Char → List Char → Bool
  | [], _ => true
  | _ :: _, [] => false
  | p :: ps, c :: cs => p == c && strStartsWith ps cs

/-- Containment test on character lists: does the pattern occur anywhere. -/
def strOccursIn (pat : List Char) : List Char → Bool
  | [] => strStartsWith pat []
  | c :: cs => strStartsWith pat (c :: cs) || strOccursIn pat cs

/-- Embedding of the Python string containment operator: pat in s. -/
def pyIn (pat s : String) : Bool := strOccursIn pat.data s.data

/-- Embedding of the expression unsplit_file_type.split with separator colon
and maxsplit one, indexed at position one: the text after the first colon, or
none (the IndexError case) when the output holds no colon. -/
def splitColonTail (s : String) : Option String :=
  match s.data.dropWhile (fun c => c != ':') with
  | [] => none
  | _ :: rest => some ⟨rest⟩

/-- Embedding of the marker matching of archOfBinary on the file type
description (the text after the first colon). The non-Windows branch with no
bitness marker reaches the end of the Python function body, which returns
None implicitly; that outcome is modelled as Except.ok none. -/
def archOfFiletype (isWindows : Bool) (filetype : String) : Except PyError (Option String) :=
  if isWindows then
    if pyIn "MS Windows" filetype then
      Except.ok (some (if pyIn "Intel 80386 32-bit" filetype then "32" else "64"))
    else Except.error PyError.assertionError
  else
    if pyIn "32-bit" filetype || pyIn "i386" filetype then
      if pyIn "64-bit" filetype then Except.error PyError.assertionError
      else Except.ok (some "32")
    else if pyIn "64-bit" filetype then
      if pyIn "32-bit" filetype then Except.error PyError.assertionError
      else Except.ok (some "64")
    else Except.ok none

/-- Embedding of archOfBinary: the output of the file utility (supplied as
the value unsplit_file_type) is split after the first colon, an unguarded
index that raises IndexError when the output holds no colon, and the
resulting description is matched against bitness markers. -/
def archOfBinary (isWindows : Bool) (unsplit_file_type : String) : Except PyError (Option String) :=
  match splitColonTail unsplit_file_type with
  | none => Except.error PyError.indexError
  | some filetype => archOfFiletype isWindows filetype

/-- C2: on a non-Windows host a description with a 32-bit marker (32-bit or
i386) yields the answer 32 unless it also holds 64-bit, in which case the
assertion fails; a description with 64-bit and no 32-bit marker yields 64; a
description with both 32-bit and 64-bit always fails the assertion. -/
theorem archOfFiletype_nonWindows (ft : String) :
    ((pyIn "32-bit" ft = true ∨ pyIn "i386" ft = true) → pyIn "64-bit" ft = false →
      archOfFiletype false ft = Except.ok (some "32")) ∧
    ((pyIn "32-bit" ft = true ∨ pyIn "i386" ft = true) → pyIn "64-bit" ft = true →
      archOfFiletype false ft = Except.error PyError.assertionError) ∧
    (pyIn "64-bit" ft = true → pyIn "32-bit" ft = false → pyIn "i386" ft = false →
      archOfFiletype false ft = Except.ok (some "64")) ∧
    (pyIn "32-bit" ft = true → pyIn "64-bit" ft = true →
      archOfFiletype false ft = Except.error PyError.assertionError) := by
  refine ⟨?_, ?_, ?_, ?_⟩
  · intro h32 h64
    rcases h32 with h | h <;> simp [archOfFiletype, h, h64]
  · intro h32 h64
    rcases h32 with h | h <;> simp [archOfFiletype, h, h64]
  · intro h64 h32 hi
    simp [archOfFiletype, h64, h32, hi]
  · intro h32 h64
    simp [archOfFiletype, h32, h64]

/-- C2 witness: concrete descriptions, one with only the 64-bit marker, one
with only a 32-bit marker, one with both markers. -/
theorem archOfFiletype_nonWindows_witness :
    archOfFiletype false " ELF 64-bit LSB executable" = Except.ok (some "64") ∧
    archOfFiletype false " ELF 32-bit LSB executable" = Except.ok (some "32") ∧
    archOfFiletype false " strange 32-bit and 64-bit blob" = Except.error PyError.assertionError :=
  ⟨(archOfFiletype_nonWindows " ELF 64-bit LSB executable").2.2.1
     (by decide) (by decide) (by decide),
   (archOfFiletype_nonWindows " ELF 32-bit LSB executable").1
     (Or.inl (by decide)) (by decide),
   (archOfFiletype_nonWindows " strange 32-bit and 64-bit blob").2.2.2
     (by decide) (by decide)⟩

/-- C7: at a file utility output whose description holds no bitness marker,
archOfBinary returns the implicit absent value None instead of failing
loudly; this evaluates the code at the failing input of the code slip the
specification flags in its open question. -/
theorem archOfBinary_no_marker_returns_none :
    archOfBinary false "/home/user/shell: data" = Except.ok none := by
  unfold archOfBinary
  rw [show splitColonTail "/home/user/shell: data" = some " data" from by decide]
  simp only []
  show archOfFiletype false " data" = Except.ok none
  simp [archOfFiletype, show pyIn "32-bit" " data" = false from by decide,
    show pyIn "i386" " data" = false from by decide,
    show pyIn "64-bit" " data" = false from by decide]

/-- C10: when the file utility output holds no colon, archOfBinary fails
with the IndexError of the unguarded index; with at least one colon it
proceeds to marker matching on the text after the first colon. -/
theorem archOfBinary_colon (isWindows : Bool) (s : String) :
    (¬ ':' ∈ s.data → archOfBinary isWindows s = Except.error PyError.indexError) ∧
    (':' ∈ s.data → ∃ ft, splitColonTail s = some ft ∧
      archOfBinary isWindows s = archOfFiletype isWindows ft) := by
  constructor
  · intro h
    have hd : s.data.dropWhile (fun c => c != ':') = [] := by
      rw [List.dropWhile_eq_nil_iff]
      intro x hx
      simp only [bne_iff_ne, ne_eq]
      intro hcolon
      exact h (hcolon ▸ hx)
    unfold archOfBinary splitColonTail
    rw [hd]
  · intro h
    have hd : s.data.dropWhile (fun c => c != ':') ≠ [] := by
      rw [Ne, List.dropWhile_eq_nil_iff]
      intro hall
      have := hall ':' h
      simp at this
    obtain ⟨c, rest, hcr⟩ := List.exists_cons_of_ne_nil hd
    refine ⟨⟨rest⟩, ?_, ?_⟩
    · unfold splitColonTail
      rw [hcr]
    · unfold archOfBinary splitColonTail
      rw [hcr]

/-- C10 witness: a concrete output with no colon raises the index error, and
a concrete output with a colon reaches marker matching. -/
theorem archOfBinary_colon_witness :
    archOfBinary false "no colon here" = Except.error PyError.indexError ∧
    archOfBinary false "sh: ELF 64-bit LSB executable" =
      archOfFiletype false " ELF 64-bit LSB executable" :=
  ⟨(archOfBinary_colon false "no colon here").1 (by decide),
   by
     obtain ⟨ft, hft, harch⟩ := (archOfBinary_colon false "sh: ELF 64-bit LSB executable").2 (by decide)
     have : ft = " ELF 64-bit LSB executable" := by
       have h2 : splitColonTail "sh: ELF 64-bit LSB executable" =
           some " ELF 64-bit LSB executable" := by decide
       rw [hft] at h2
       exact Option.some.inj h2
     rw [harch, this]⟩

/-- Record of expected build options (sh.build_opts): the six boolean fields
verifyBinary reads. -/
structure BuildOpts where
  enable32 : Bool
  enableDbg : Bool
  enableMoreDeterministic : Bool
  buildWithAsan : Bool
  enableSimulatorArm32 : Bool
  enableSimulatorArm64 : Bool
  deriving DecidableEq

/-- Probe names of the six verification steps in their source order: the
file utility call of archOfBinary, then the four configuration fields, with
arm-simulator queried twice (once per simulator assertion). -/
def verifyProbeOrder : List String :=
  ["file", "debug", "more-deterministic", "asan", "arm-simulator", "arm-simulator"]

/-- Embedding of verifyBinary: the sequence of asserts of the source, in
order, stopping at the first failure. The architecture probe outcome is the
value archOfBinary produced (an error there propagates before the first
assert); the configuration queries are an oracle giving the boolean each
queryBuildConfiguration call returns, the fields queried being boolean
flags. The result carries the build options record as the call leaves it,
the ordered list of probes performed, and the verdict. -/
def verifyBinary (arch : Except PyError (Option String)) (query : String → Bool)
    (build_opts : BuildOpts) : BuildOpts × List String × Except PyError Unit :=
  match arch with
  | Except.error e => (build_opts, ["file"], Except.error e)
  | Except.ok a =>
    if a ≠ some (if build_opts.enable32 then "32" else "64") then
      (build_opts, ["file"], Except.error PyError.assertionError)
    else if query "debug" ≠ build_opts.enableDbg then
      (build_opts, ["file", "debug"], Except.error PyError.assertionError)
    else if query "more-deterministic" ≠ build_opts.enableMoreDeterministic then
      (build_opts, ["file", "debug", "more-deterministic"], Except.error PyError.assertionError)
    else if query "asan" ≠ build_opts.buildWithAsan then
      (build_opts, ["file", "debug", "more-deterministic", "asan"],
        Except.error PyError.assertionError)
    else if (query "arm-simulator" && build_opts.enable32) ≠ build_opts.enableSimulatorArm32 then
      (build_opts, ["file", "debug", "more-deterministic", "asan", "arm-simulator"],
        Except.error PyError.assertionError)
    else if (query "arm-simulator" && !build_opts.enable32) ≠ build_opts.enableSimulatorArm64 then
      (build_opts, verifyProbeOrder, Except.error PyError.assertionError)
    else
      (build_opts, verifyProbeOrder, Except.ok ())

/-- C3: verifyBinary succeeds only when the arm simulator conjunction with
enable32 matches enableSimulatorArm32 and the conjunction with the negation
of enable32 matches enableSimulatorArm64. -/
theorem verifyBinary_arm_simulator (arch : Except PyError (Option String))
    (query : String → Bool) (b : BuildOpts)
    (h : (verifyBinary arch query b).2.2 = Except.ok ()) :
    (query "arm-simulator" && b.enable32) = b.enableSimulatorArm32 ∧
    (query "arm-simulator" && !b.enable32) = b.enableSimulatorArm64 := by
  unfold verifyBinary at h
  cases arch with
  | error e => simp at h
  | ok a =>
    simp only at h
    repeat' split at h
    all_goals simp_all

/-- C3 witness: a concrete all false configuration with a 64-bit probe and
all false query results verifies, and the two simulator equalities hold. -/
theorem verifyBinary_arm_simulator_witness :
    ((fun (_ : String) => false) "arm-simulator" &&
        (⟨false, false, false, false, false, false⟩ : BuildOpts).enable32) =
      (⟨false, false, false, false, false, false⟩ : BuildOpts).enableSimulatorArm32 ∧
    ((fun (_ : String) => false) "arm-simulator" &&
        !(⟨false, false, false, false, false, false⟩ : BuildOpts).enable32) =
      (⟨false, false, false, false, false, false⟩ : BuildOpts).enableSimulatorArm64 :=
  verifyBinary_arm_simulator (Except.ok (some "64")) (fun _ => false)
    ⟨false, false, false, false, false, false⟩ rfl

/-- C5: the probes of verifyBinary happen in the fixed source order (the
performed trace is always a prefix of verifyProbeOrder, so the first failing
check aborts the rest), and with enable32 expected but an architecture probe
answering 64 the run stops at the architecture check with no configuration
query performed. -/
theorem verifyBinary_failfast (arch : Except PyError (Option String))
    (query : String → Bool) (b : BuildOpts) :
    ((verifyBinary arch query b).2.1 <+: verifyProbeOrder) ∧
    (b.enable32 = true → arch = Except.ok (some "64") →
      verifyBinary arch query b = (b, ["file"], Except.error PyError.assertionError)) := by
  constructor
  · unfold verifyBinary
    cases arch with
    | error e => exact ⟨_, rfl⟩
    | ok a =>
      repeat' split
      all_goals first
        | exact List.prefix_refl _
        | exact ⟨_, rfl⟩
  · intro h32 harch
    subst harch
    unfold verifyBinary
    rw [h32]
    simp

/-- C5 witness: a concrete expected 32-bit configuration against a 64-bit
architecture probe stops after the file probe alone. -/
theorem verifyBinary_failfast_witness :
    verifyBinary (Except.ok (some "64")) (fun _ => true)
        ⟨true, false, false, false, false, false⟩ =
      (⟨true, false, false, false, false, false⟩, ["file"],
        Except.error PyError.assertionError) :=
  (verifyBinary_failfast (Except.ok (some "64")) (fun _ => true)
    ⟨true, false, false, false, false, false⟩).2 rfl rfl

/-- C9: verifyBinary leaves the build options record unchanged, whether the
verdict is success, an assertion failure, or a propagated probe error. -/
theorem verifyBinary_preserves_build_opts (arch : Except PyError (Option String))
    (query : String → Bool) (b : BuildOpts) :
    (verifyBinary arch query b).1 = b := by
  unfold verifyBinary
  cases arch with
  | error e => rfl
  | ok a =>
    repeat' split
    all_goals rfl

/-- Timeout in seconds handed to subprocess.run inside testBinary. -/
def testBinaryTimeout : Nat := 999

/-- Timeout in seconds handed to subprocess.run on the file utility call
inside archOfBinary. -/
def archOfBinaryFileTimeout : Nat := 99

/-- shellSupports performs its probe through testBinary, so a flag or
feature support probe runs under the testBinary timeout. -/
def shellSupportsProbeTimeout : Nat := testBinaryTimeout

/-- queryBuildConfiguration performs its query through testBinary, so a
configuration query runs under the testBinary timeout. -/
def queryBuildConfigurationTimeout : Nat := testBinaryTimeout

/-- C8 counterexample: the flag and feature probe timeout is 999 seconds,
neither below the configuration query timeout nor in the tens of seconds. -/
theorem shellSupports_timeout_not_short :
    shellSupportsProbeTimeout = 999 ∧
    ¬ shellSupportsProbeTimeout < queryBuildConfigurationTimeout ∧
    ¬ shellSupportsProbeTimeout < 100 := by decide

/-- C8 amended: feature probes, configuration queries and general test
invocations all share the long 999 second timeout of testBinary; the short
99 second timeout belongs only to the file utility call of archOfBinary. -/
theorem timeout_tiers :
    shellSupportsProbeTimeout = 999 ∧ queryBuildConfigurationTimeout = 999 ∧
    testBinaryTimeout = 999 ∧ archOfBinaryFileTimeout = 99 ∧
    archOfBinaryFileTimeout < 100 := by decide

/-- Whitespace characters str.rstrip removes: space, tab, newline, carriage
return, vertical tab and form feed. -/
def isPyWhitespace (c : Char) : Bool :=
  c == ' ' || c == '\t' || c == '\n' || c == '\r' || c == Char.ofNat 11 || c == Char.ofNat 12

/-- Embedding of str.rstrip with no argument: drop trailing whitespace. -/
def pyRstrip (s : String) : String :=
  ⟨(s.data.reverse.dropWhile isPyWhitespace).reverse⟩

/-- Embedding of str.lower, character by character. -/
def pyLower (s : String) : String := ⟨s.data.map Char.toLower⟩

/-- JSON scalar values a build configuration query can decode. -/
inductive Json where
  | null
  | bool (b : Bool)
  | num (n : Int)
  deriving DecidableEq

/-- Whitespace json.loads skips around a document: space, tab, newline and
carriage return. -/
def isJsonWhitespace (c : Char) : Bool :=
  c == ' ' || c == '\t' || c == '\n' || c == '\r'

/-- Digit run valued as a natural number. -/
def natOfDigits (cs : List Char) : Nat :=
  cs.foldl (fun acc c => acc * 10 + (c.toNat - 48)) 0

/-- Integer literal of JSON: an optional minus sign then a nonempty digit
run. -/
def parseJsonInt (cs : List Char) : Option Int :=
  match cs with
  | '-' :: rest =>
    if rest ≠ [] ∧ rest.all Char.isDigit then some (-(natOfDigits rest : Int)) else none
  | _ =>
    if cs ≠ [] ∧ cs.all Char.isDigit then some ((natOfDigits cs : Int)) else none

/-- Embedding of json.loads restricted to the scalar literals a build
configuration query prints: the literals true, false and null, and integer
literals, each allowing surrounding JSON whitespace; every other document is
a decode error, standing in for the ValueError of json.loads and for JSON
forms no query of this module produces. -/
def jsonLoads (s : String) : Except PyError Json :=
  let t : List Char :=
    ((s.data.dropWhile isJsonWhitespace).reverse.dropWhile isJsonWhitespace).reverse
  if t = "true".data then Except.ok (Json.bool true)
  else if t = "false".data then Except.ok (Json.bool false)
  else if t = "null".data then Except.ok Json.null
  else
    match parseJsonInt t with
    | some n => Except.ok (Json.num n)
    | none => Except.error PyError.jsonDecodeError

/-- Probe script testBinary receives from queryBuildConfiguration for a
given parameter. -/
def buildConfigurationScript (parameter : String) : String :=
  "print(getBuildConfiguration()[\"" ++ parameter ++ "\"])"

/-- Embedding of queryBuildConfiguration: run the shell on the introspection
script through testBinary (stderr discarded, an external effect outside the
embedding), take captured stdout, strip trailing whitespace, lower-case, and
parse as JSON. -/
def queryBuildConfiguration (run : List String → ProbeResult) (isDarwin : Bool)
    (s parameter : String) : Except PyError Json :=
  jsonLoads (pyLower (pyRstrip
    (testBinary run isDarwin s ["-e", buildConfigurationScript parameter] false).stdout))

/-- Dropping over an append whose first part wholly satisfies the predicate
drops on from the second part. -/
theorem dropWhile_append_of_forall {α : Type} (p : α → Bool) (l₁ l₂ : List α)
    (h : ∀ x ∈ l₁, p x = true) : (l₁ ++ l₂).dropWhile p = l₂.dropWhile p := by
  induction l₁ with
  | nil => rfl
  | cons a l ih =>
    have ha : p a = true := h a (List.mem_cons_self a l)
    simp only [List.cons_append, List.dropWhile_cons, ha, if_true]
    exact ih (fun x hx => h x (List.mem_cons_of_mem a hx))

/-- Stripping trailing whitespace from a case variation of the word true
followed by whitespace returns the case variation itself. -/
theorem pyRstrip_true_append (core ws : String) (hcore : pyLower core = "true")
    (hws : ∀ c ∈ ws.data, isPyWhitespace c = true) :
    pyRstrip (core ++ ws) = core := by
  have hdata : core.data.map Char.toLower = ['t', 'r', 'u', 'e'] := by
    have h1 := congrArg String.data hcore
    simpa [pyLower] using h1
  have hrevmap : core.data.reverse.map Char.toLower = ['e', 'u', 'r', 't'] := by
    rw [List.map_reverse, hdata]
    rfl
  cases hrev : core.data.reverse with
  | nil => rw [hrev] at hrevmap; exact absurd hrevmap (by decide)
  | cons x xs =>
    rw [hrev] at hrevmap
    simp only [List.map_cons, List.cons.injEq] at hrevmap
    have hxe : Char.toLower x = 'e' := hrevmap.1
    have hx : isPyWhitespace x = false := by
      cases hb : isPyWhitespace x with
      | false => rfl
      | true =>
        exfalso
        simp only [isPyWhitespace, Bool.or_eq_true, beq_iff_eq] at hb
        rcases hb with ((((h | h) | h) | h) | h) | h <;> rw [h] at hxe <;>
          exact absurd hxe (by decide)
    have hcond : ¬ (isPyWhitespace x = true) := by
      rw [hx]
      exact Bool.false_ne_true
    unfold pyRstrip
    rw [String.data_append, List.reverse_append,
      dropWhile_append_of_forall isPyWhitespace ws.data.reverse core.data.reverse
        (fun c hc => hws c (List.mem_reverse.mp hc)),
      hrev, List.dropWhile_cons, if_neg hcond, ← hrev, List.reverse_reverse]

/-- C4: queryBuildConfiguration strips trailing whitespace from the probe
stdout, lower-cases it and parses the result as JSON; on a stdout that is
the text true in any letter case followed by optional trailing whitespace it
returns the JSON boolean true. -/
theorem queryBuildConfiguration_parses_true (run : List String → ProbeResult)
    (isDarwin : Bool) (s parameter core ws : String)
    (hout : (testBinary run isDarwin s ["-e", buildConfigurationScript parameter]
        false).stdout = core ++ ws)
    (hcore : pyLower core = "true")
    (hws : ∀ c ∈ ws.data, isPyWhitespace c = true) :
    queryBuildConfiguration run isDarwin s parameter = Except.ok (Json.bool true) := by
  unfold queryBuildConfiguration
  rw [hout, pyRstrip_true_append core ws hcore hws, hcore]
  rfl

/-- C4 witness: a probe printing TrUe with a trailing space and newline
decodes to the JSON boolean true. -/
theorem queryBuildConfiguration_parses_true_witness :
    queryBuildConfiguration (fun _ => ⟨"TrUe \n", 0⟩) false "js" "debug" =
      Except.ok (Json.bool true) :=
  queryBuildConfiguration_parses_true (fun _ => ⟨"TrUe \n", 0⟩) false "js" "debug"
    "TrUe" " \n" (by decide) (by decide) (by decide)

end InspectShell
